import Mathlib

/-!
Shallow embedding of `src/clippy_lints/src/format.rs` (the `useless_format`
lint pass). The HIR expression fragment that `check_expr`,
`check_single_piece`, `get_single_string_arg` and `check_unformatted`
inspect is embedded as an inductive tree; the compiler context (`cx`) is a
record of the external query functions these routines consume
(`resolve_node`/`opt_def_id`, `match_def_path`'s path table, `pat_ty`,
`snippet`, `is_expn_of`, `in_macro`). Rust index operations that may panic
are modelled explicitly with `PanicOr`.
-/

namespace UselessFormat

abbrev Span := Nat

abbrev HirId := Nat

abbrev DefId := Nat

/-- Qualified path appearing in the HIR; `segments` are the path-segment
names, used by `last_path_segment`. Resolution of a `QPath` at a HIR node
goes through the context, not through the segments. -/
structure QPath where
  segments : List String
  deriving DecidableEq

/-- Modelled from the spec: the terminal-segment lookup used by
`check_unformatted` ("a Path resolving by simple name to the symbolic
constant Implied"); the helper `last_path_segment` itself lives in
`clippy_lints/src/utils`, outside the core source file. -/
def last_path_segment (q : QPath) : String :=
  q.segments.getLastD ""

/-- `syntax::ast::LitKind`, restricted to what the lint inspects:
`LitKind::Str(symbol, style)` and everything else. -/
inductive LitKind : Type where
  | Str (s : String) (raw : Bool)
  | Other
  deriving DecidableEq

/-- Pattern fragment: `PatKind::Tuple(pats, ddpos)` plus bound names (the
carrier for `pat_ty` lookups) and a catch-all. -/
inductive Pat : Type where
  | Binding (id : Nat)
  | Tuple (pats : List Pat) (ddpos : Option Nat)
  | Wild

mutual

/-- A HIR expression: id, span and node kind, as read by the lint. -/
inductive Expr : Type where
  | mk (hirId : HirId) (span : Span) (node : ExprKind)

/-- `rustc::hir::ExprKind`, restricted to the variants the lint matches;
all other variants are collapsed into `Other`. -/
inductive ExprKind : Type where
  | Call (callee : Expr) (args : List Expr)
  | Match (scrut : Expr) (arms : List Arm) (src : Nat)
  | AddrOf (mutbl : Bool) (inner : Expr)
  | Array (elems : List Expr)
  | Struct (path : QPath) (fields : List Field) (base : Option Expr)
  | Tup (elems : List Expr)
  | Path (q : QPath)
  | Lit (lit : LitKind)
  | Other

/-- A match arm: patterns, optional guard, body. -/
inductive Arm : Type where
  | mk (pats : List Pat) (guard : Option Expr) (body : Expr)

/-- A struct-literal field: `ident.name` and the field expression. -/
inductive Field : Type where
  | mk (name : String) (expr : Expr)

end

def Expr.hirId : Expr → HirId
  | .mk i _ _ => i

def Expr.span : Expr → Span
  | .mk _ s _ => s

def Expr.node : Expr → ExprKind
  | .mk _ _ n => n

def Arm.pats : Arm → List Pat
  | .mk p _ _ => p

def Arm.guard : Arm → Option Expr
  | .mk _ g _ => g

def Arm.body : Arm → Expr
  | .mk _ _ b => b

def Field.name : Field → String
  | .mk n _ => n

def Field.expr : Field → Expr
  | .mk _ e => e

/-- `rustc::ty` fragment: `TyStr`, references (stripped by
`walk_ptrs_ty`), ADTs identified by their `DefId`, and a catch-all. -/
inductive Ty : Type where
  | Str
  | Ref (t : Ty)
  | Adt (did : DefId)
  | Other
  deriving DecidableEq

/-- `utils::walk_ptrs_ty`: strip surface reference wrappers. -/
def walk_ptrs_ty : Ty → Ty
  | .Ref t => walk_ptrs_ty t
  | t => t

/-- `paths::FMT_ARGUMENTS_NEWV1FORMATTED`. -/
def FMT_ARGUMENTS_NEWV1FORMATTED : List String :=
  ["core", "fmt", "Arguments", "new_v1_formatted"]

/-- `paths::DISPLAY_FMT_METHOD`. -/
def DISPLAY_FMT_METHOD : List String :=
  ["core", "fmt", "Display", "fmt"]

/-- `paths::STRING`. -/
def STRING_PATH : List String :=
  ["alloc", "string", "String"]

/-- The external compiler context consumed by the lint: path resolution
(`opt_def_id (resolve_node cx qpath hirId)`), the def-path table backing
`match_def_path`, `cx.tables.pat_ty`, `snippet`, `is_expn_of (span,
"format")` and `in_macro`. -/
structure Context where
  resolve : QPath → HirId → Option DefId
  defPath : DefId → List String
  patTy : Pat → Ty
  snippet : Span → String
  expnOfFormat : Span → Option Span
  inMacro : Span → Bool

/-- `utils::match_def_path`: compare a `DefId`'s path with a fixed path. -/
def match_def_path (cx : Context) (did : DefId) (p : List String) : Bool :=
  decide (cx.defPath did = p)

/-- `utils::match_type`: the type is the ADT with the given def path. -/
def match_type (cx : Context) (ty : Ty) (p : List String) : Bool :=
  match ty with
  | .Adt did => match_def_path cx did p
  | _ => false

/-- Result of an operation that may hit a Rust panic (out-of-bounds
index); `ok` is the normal return value. -/
inductive PanicOr (α : Type) : Type where
  | panic
  | ok (val : α)
  deriving DecidableEq

/-- The structured diagnostic request built by `span_lint_and_then` +
`db.span_suggestion`: the span the lint is reported at, the lint message,
the span the suggestion is attached to, the suggestion message, and the
replacement text. -/
structure Suggestion where
  lintSpan : Span
  msg : String
  suggSpan : Span
  helpMsg : String
  replacement : String
  deriving DecidableEq

/-- `check_single_piece`: checks if the expression matches `&[""]`. -/
def check_single_piece (expr : Expr) : Bool :=
  match expr.node with
  | ExprKind.AddrOf _ e =>
    match e.node with
    | ExprKind.Array exprs =>
      match exprs with
      | [e0] =>
        match e0.node with
        | ExprKind.Lit lit =>
          match lit with
          | LitKind.Str s _ => s.isEmpty
          | _ => false
        | _ => false
      | _ => false
    | _ => false
  | _ => false

/-- `get_single_string_arg`: checks if the expression matches
`&match (&"arg",) { (__arg0,) => [ArgumentV1::new(__arg0, Display::fmt)] }`
with `__arg0 : &str` or `String`, and returns the span of the first
element of the matched tuple. The unguarded Rust index `values[0]` is
modelled by `PanicOr.panic` when the tuple scrutinee is empty. -/
def get_single_string_arg (cx : Context) (expr : Expr) : PanicOr (Option Span) :=
  match expr.node with
  | ExprKind.AddrOf _ e =>
    match e.node with
    | ExprKind.Match matchExpr arms _ =>
      match arms with
      | [arm] =>
        match arm.pats with
        | [p0] =>
          match p0 with
          | Pat.Tuple pat none =>
            match pat with
            | [b0] =>
              match arm.body.node with
              | ExprKind.Array exprs =>
                match exprs with
                | [e0] =>
                  match e0.node with
                  | ExprKind.Call _ args =>
                    match args with
                    | [_, a1] =>
                      match a1.node with
                      | ExprKind.Path qpath =>
                        match cx.resolve qpath a1.hirId with
                        | some fun_def_id =>
                          if match_def_path cx fun_def_id DISPLAY_FMT_METHOD then
                            if walk_ptrs_ty (cx.patTy b0) = Ty.Str ∨
                                match_type cx (walk_ptrs_ty (cx.patTy b0)) STRING_PATH = true then
                              match matchExpr.node with
                              | ExprKind.Tup values =>
                                match values with
                                | v0 :: _ => PanicOr.ok (some v0.span)
                                | [] => PanicOr.panic
                              | _ => PanicOr.ok none
                            else PanicOr.ok none
                          else PanicOr.ok none
                        | none => PanicOr.ok none
                      | _ => PanicOr.ok none
                    | _ => PanicOr.ok none
                  | _ => PanicOr.ok none
                | _ => PanicOr.ok none
              | _ => PanicOr.ok none
            | _ => PanicOr.ok none
          | _ => PanicOr.ok none
        | _ => PanicOr.ok none
      | _ => PanicOr.ok none
    | _ => PanicOr.ok none
  | _ => PanicOr.ok none

/-- `check_unformatted`: checks if the expression matches
`&[_ { format: _ { width: _::Implied, .. }, .. }]`. -/
def check_unformatted (expr : Expr) : Bool :=
  match expr.node with
  | ExprKind.AddrOf _ e =>
    match e.node with
    | ExprKind.Array exprs =>
      match exprs with
      | [e0] =>
        match e0.node with
        | ExprKind.Struct _ fields _ =>
          match fields.find? (fun f => f.name == "format") with
          | some format_field =>
            match format_field.expr.node with
            | ExprKind.Struct _ fields2 _ =>
              match fields2.find? (fun f => f.name == "width") with
              | some align_field =>
                match align_field.expr.node with
                | ExprKind.Path qpath => last_path_segment qpath == "Implied"
                | _ => false
              | none => false
            | _ => false
          | _ => false
        | _ => false
      | _ => false
    | _ => false
  | _ => false

/-- `Pass::check_expr`, reified as a classifier returning the diagnostic
request it would emit (or none), with the potential panic of
`get_single_string_arg` propagated. -/
def classify (cx : Context) (expr : Expr) : PanicOr (Option Suggestion) :=
  match cx.expnOfFormat expr.span with
  | none => PanicOr.ok none
  | some span =>
    if cx.inMacro span then PanicOr.ok none
    else
      match expr.node with
      | ExprKind.Call fn args =>
        match fn.node with
        | ExprKind.Path qpath =>
          match args with
          | [a0, a1, a2] =>
            match cx.resolve qpath fn.hirId with
            | some fun_def_id =>
              if match_def_path cx fun_def_id FMT_ARGUMENTS_NEWV1FORMATTED then
                if check_single_piece a0 then
                  match get_single_string_arg cx a1 with
                  | PanicOr.panic => PanicOr.panic
                  | PanicOr.ok (some format_arg) =>
                    if check_unformatted a2 then
                      PanicOr.ok (some (Suggestion.mk span "useless use of `format!`"
                        expr.span "consider using .to_string()"
                        (cx.snippet format_arg ++ ".to_string()")))
                    else PanicOr.ok none
                  | PanicOr.ok none => PanicOr.ok none
                else PanicOr.ok none
              else PanicOr.ok none
            | none => PanicOr.ok none
          | _ => PanicOr.ok none
        | _ => PanicOr.ok none
      | ExprKind.Match matchee _ _ =>
        match matchee.node with
        | ExprKind.Tup tup =>
          match tup with
          | [] =>
            PanicOr.ok (some (Suggestion.mk span "useless use of `format!`"
              span "consider using .to_string()"
              (cx.snippet expr.span ++ ".to_string()")))
          | _ => PanicOr.ok none
        | _ => PanicOr.ok none
      | _ => PanicOr.ok none

/-- Whether a classification result carries a suggestion. -/
def emits : PanicOr (Option Suggestion) → Bool
  | PanicOr.ok (some _) => true
  | _ => false

/-- Length of the tuple scrutinee sitting under `&match (…) { … }`, when
the expression has that shape. -/
def scrutTupLen (e : Expr) : Option Nat :=
  match e.node with
  | ExprKind.AddrOf _ inner =>
    match inner.node with
    | ExprKind.Match m _ _ =>
      match m.node with
      | ExprKind.Tup vs => some vs.length
      | _ => none
    | _ => none
  | _ => none

/-- The expression is `&match (…) { … }` with an empty tuple scrutinee:
the one shape on which the unguarded index `values[0]` fires. -/
def hasEmptyTupScrut (e : Expr) : Bool :=
  match e.node with
  | ExprKind.AddrOf _ inner =>
    match inner.node with
    | ExprKind.Match m _ _ =>
      match m.node with
      | ExprKind.Tup vs => vs.isEmpty
      | _ => false
    | _ => false
  | _ => false

/-- When the expression is a call, none of its arguments has the
empty-tuple-scrutinee shape. -/
def callArgsEmptyScrutFree (e : Expr) : Bool :=
  match e.node with
  | ExprKind.Call _ args => args.all (fun a => !hasEmptyTupScrut a)
  | _ => true

/-- The width gate of `check_unformatted`, on the fields of the
specification struct: the first field named `format` is a struct literal
whose first field named `width` is a path whose last segment is
`Implied`. -/
def widthImplied (fields : List Field) : Bool :=
  match fields.find? (fun f => f.name == "format") with
  | some format_field =>
    match format_field.expr.node with
    | ExprKind.Struct _ fields2 _ =>
      match fields2.find? (fun f => f.name == "width") with
      | some align_field =>
        match align_field.expr.node with
        | ExprKind.Path qpath => last_path_segment qpath == "Implied"
        | _ => false
      | none => false
    | _ => false
  | none => false

/-! ### Concrete instances used by witnesses and counterexamples -/

/-- Path that resolves to the formatted-arguments constructor. -/
def qNew : QPath := QPath.mk ["std", "fmt", "Arguments", "new_v1_formatted"]

/-- Path that resolves to the display-format method. -/
def qDisp : QPath := QPath.mk ["std", "fmt", "Display", "fmt"]

/-- Path whose last segment is `Implied`. -/
def qImplied : QPath := QPath.mk ["std", "fmt", "rt", "v1", "Count", "Implied"]

/-- Path whose last segment is `Is` (an explicit width). -/
def qIs : QPath := QPath.mk ["std", "fmt", "rt", "v1", "Count", "Is"]

/-- A concrete context: `qNew` resolves to def-id 1 (the constructor),
`qDisp` to def-id 2 (the display method); every bound pattern has type
`&&str`; span 1 (the expanded expression) is an expansion of a `format!`
call at span 2, which is not itself inside another macro. -/
def cxA : Context := Context.mk
  (fun q _ => if q = qNew then some 1 else if q = qDisp then some 2 else none)
  (fun d => if d = 1 then FMT_ARGUMENTS_NEWV1FORMATTED
            else if d = 2 then DISPLAY_FMT_METHOD
            else if d = 3 then STRING_PATH else [])
  (fun _ => Ty.Ref Ty.Str)
  (fun s => if s = 11 then "foo" else if s = 2 then "orig" else if s = 1 then "expd" else "x")
  (fun s => if s = 1 then some 2 else none)
  (fun _ => false)

/-- Like `cxA` but every bound pattern has a non-string ADT type whose
def path is neither the string-slice nor the owned-string path. -/
def cxB : Context := Context.mk cxA.resolve cxA.defPath
  (fun _ => Ty.Adt 9) cxA.snippet cxA.expnOfFormat cxA.inMacro

/-- Like `cxA` but path resolution always fails. -/
def cxC : Context := Context.mk (fun _ _ => none) cxA.defPath
  cxA.patTy cxA.snippet cxA.expnOfFormat cxA.inMacro

/-- First argument of the expanded call: `&[""]`. -/
def tPiece : Expr :=
  Expr.mk 100 30 (ExprKind.AddrOf false
    (Expr.mk 101 31 (ExprKind.Array [Expr.mk 102 32 (ExprKind.Lit (LitKind.Str "" false))])))

/-- The caller's original argument expression, at span 11. -/
def tValue : Expr := Expr.mk 110 11 (ExprKind.Lit (LitKind.Str "foo" false))

/-- A second tuple element, at span 12. -/
def tValue2 : Expr := Expr.mk 118 12 (ExprKind.Lit (LitKind.Str "bar" false))

/-- The second argument of the inner call: the `Display::fmt` path. -/
def tDispArg : Expr := Expr.mk 115 45 (ExprKind.Path qDisp)

/-- The inner call `ArgumentV1::new(__arg0, Display::fmt)`. -/
def tInnerCall : Expr :=
  Expr.mk 112 42 (ExprKind.Call (Expr.mk 113 43 ExprKind.Other)
    [Expr.mk 114 44 ExprKind.Other, tDispArg])

/-- Body of the match arm: `[ArgumentV1::new(__arg0, Display::fmt)]`. -/
def tArmBody : Expr := Expr.mk 111 41 (ExprKind.Array [tInnerCall])

/-- The single arm `(__arg0,) => [ArgumentV1::new(__arg0, Display::fmt)]`. -/
def tArm : Arm := Arm.mk [Pat.Tuple [Pat.Binding 0] none] none tArmBody

/-- The one-element tuple scrutinee `(foo,)`. -/
def tScrut : Expr := Expr.mk 119 48 (ExprKind.Tup [tValue])

/-- The synthesized match expression over `tScrut`. -/
def tArg1Inner : Expr := Expr.mk 117 47 (ExprKind.Match tScrut [tArm] 0)

/-- Second argument of the expanded call:
`&match (foo,) { (__arg0,) => [ArgumentV1::new(__arg0, Display::fmt)] }`. -/
def tArg1 : Expr := Expr.mk 116 46 (ExprKind.AddrOf false tArg1Inner)

/-- Ill-typed variant of `tArg1` whose scrutinee tuple has two elements. -/
def tArg1Two : Expr :=
  Expr.mk 116 46 (ExprKind.AddrOf false
    (Expr.mk 117 47 (ExprKind.Match (Expr.mk 119 48 (ExprKind.Tup [tValue, tValue2])) [tArm] 0)))

/-- Ill-typed variant of `tArg1` whose scrutinee tuple is empty. -/
def tArg1Empty : Expr :=
  Expr.mk 116 46 (ExprKind.AddrOf false
    (Expr.mk 117 47 (ExprKind.Match (Expr.mk 119 48 (ExprKind.Tup [])) [tArm] 0)))

/-- The `width: Implied` field. -/
def tWidthField : Field := Field.mk "width" (Expr.mk 120 50 (ExprKind.Path qImplied))

/-- The `format: _ { width: Implied }` field. -/
def tFormatField : Field :=
  Field.mk "format" (Expr.mk 121 51 (ExprKind.Struct (QPath.mk ["FormatSpec"]) [tWidthField] none))

/-- Third argument of the expanded call: `&[_ { format: _ { width: Implied } }]`. -/
def tSpec : Expr :=
  Expr.mk 122 53 (ExprKind.AddrOf false (Expr.mk 123 54 (ExprKind.Array
    [Expr.mk 124 52 (ExprKind.Struct (QPath.mk ["Argument"]) [tFormatField] none)])))

/-- Fields of the specification struct in `tSpecBad`: the width is the
explicit `Count::Is`. -/
def tBadFields : List Field :=
  [Field.mk "format" (Expr.mk 121 51 (ExprKind.Struct (QPath.mk ["FormatSpec"])
    [Field.mk "width" (Expr.mk 120 50 (ExprKind.Path qIs))] none))]

/-- The specification struct of `tSpecBad`. -/
def tBadStruct : Expr :=
  Expr.mk 124 52 (ExprKind.Struct (QPath.mk ["Argument"]) tBadFields none)

/-- The one-element array of `tSpecBad`. -/
def tBadArr : Expr := Expr.mk 123 54 (ExprKind.Array [tBadStruct])

/-- Variant of `tSpec` with an explicit width `Count::Is`. -/
def tSpecBad : Expr := Expr.mk 122 53 (ExprKind.AddrOf false tBadArr)

/-- Fields of the format struct in `tSpecExtra`: explicit non-`Implied`
values everywhere except `width`. -/
def tExtraFields2 : List Field :=
  [Field.mk "fill" (Expr.mk 126 56 (ExprKind.Path qIs)),
   Field.mk "precision" (Expr.mk 127 57 (ExprKind.Path qIs)),
   tWidthField,
   Field.mk "align" (Expr.mk 128 58 (ExprKind.Path qIs))]

/-- The `format` field of `tSpecExtra`. -/
def tExtraFormatField : Field :=
  Field.mk "format" (Expr.mk 121 51 (ExprKind.Struct (QPath.mk ["FormatSpec"]) tExtraFields2 none))

/-- Fields of the specification struct in `tSpecExtra`. -/
def tExtraFields : List Field :=
  [Field.mk "position" (Expr.mk 125 55 (ExprKind.Path qIs)), tExtraFormatField]

/-- The specification struct of `tSpecExtra`. -/
def tExtraStruct : Expr :=
  Expr.mk 124 52 (ExprKind.Struct (QPath.mk ["Argument"]) tExtraFields none)

/-- The one-element array of `tSpecExtra`. -/
def tExtraArr : Expr := Expr.mk 123 54 (ExprKind.Array [tExtraStruct])

/-- Variant of `tSpec` whose struct carries extra fields with explicit
non-`Implied` values around `format`, and whose format struct carries
extra non-`Implied` fields around `width`. -/
def tSpecExtra : Expr := Expr.mk 122 53 (ExprKind.AddrOf false tExtraArr)

/-- The callee path expression of the expanded call. -/
def tCallee : Expr := Expr.mk 130 60 (ExprKind.Path qNew)

/-- The full expanded call `Arguments::new_v1_formatted(&[""], &match …, &[…])`,
at span 1 (whose `format!` origin is span 2). -/
def tCallA : Expr := Expr.mk 131 1 (ExprKind.Call tCallee [tPiece, tArg1, tSpec])

/-- Variant of `tCallA` whose second argument has the empty-tuple
scrutinee. -/
def tCallPanic : Expr := Expr.mk 131 1 (ExprKind.Call tCallee [tPiece, tArg1Empty, tSpec])

/-- Variant of `tCallA` with an explicit width in the third argument. -/
def tCallBadSpec : Expr := Expr.mk 131 1 (ExprKind.Call tCallee [tPiece, tArg1, tSpecBad])

/-- The empty tuple scrutinee `()` of the literal-form expansion. -/
def tLitScrut : Expr := Expr.mk 133 49 (ExprKind.Tup [])

/-- The literal-form expansion `match () { () => […] }` at span 1. -/
def tMatchLit : Expr := Expr.mk 132 1 (ExprKind.Match tLitScrut [] 0)

/-! ### Theorems -/

/-- Helper: what `classify` computes on a call node with exactly three
arguments, with the expression-node dispatch already resolved. -/
theorem classify_call_eq (cx : Context) (ec fn : Expr) (a0 a1 a2 : Expr)
    (hec : ec.node = ExprKind.Call fn [a0, a1, a2]) :
    classify cx ec =
      match cx.expnOfFormat ec.span with
      | none => PanicOr.ok none
      | some span =>
        if cx.inMacro span then PanicOr.ok none
        else
          match fn.node with
          | ExprKind.Path qpath =>
            match cx.resolve qpath fn.hirId with
            | some fun_def_id =>
              if match_def_path cx fun_def_id FMT_ARGUMENTS_NEWV1FORMATTED then
                if check_single_piece a0 then
                  match get_single_string_arg cx a1 with
                  | PanicOr.panic => PanicOr.panic
                  | PanicOr.ok (some format_arg) =>
                    if check_unformatted a2 then
                      PanicOr.ok (some (Suggestion.mk span "useless use of `format!`"
                        ec.span "consider using .to_string()"
                        (cx.snippet format_arg ++ ".to_string()")))
                    else PanicOr.ok none
                  | PanicOr.ok none => PanicOr.ok none
                else PanicOr.ok none
              else PanicOr.ok none
            | none => PanicOr.ok none
          | _ => PanicOr.ok none := by
  obtain ⟨i, sp, nd⟩ := ec
  simp only [Expr.node] at hec
  subst hec
  rfl

/-- Helper: what `classify` computes on a match node, with the
expression-node dispatch already resolved. -/
theorem classify_match_eq (cx : Context) (ec m : Expr) (arms : List Arm) (msrc : Nat)
    (hec : ec.node = ExprKind.Match m arms msrc) :
    classify cx ec =
      match cx.expnOfFormat ec.span with
      | none => PanicOr.ok none
      | some span =>
        if cx.inMacro span then PanicOr.ok none
        else
          match m.node with
          | ExprKind.Tup tup =>
            match tup with
            | [] =>
              PanicOr.ok (some (Suggestion.mk span "useless use of `format!`" span
                "consider using .to_string()" (cx.snippet ec.span ++ ".to_string()")))
            | _ => PanicOr.ok none
          | _ => PanicOr.ok none := by
  obtain ⟨i, sp, nd⟩ := ec
  simp only [Expr.node] at hec
  subst hec
  rfl

/-- Claim C7: `check_single_piece` returns true exactly for an address-of
wrapping a one-element array whose sole element is a string literal with
empty text; for every other expression it returns false. -/
theorem claim_C7 (e : Expr) :
    check_single_piece e = true ↔
      ∃ mutbl inner e0 raw, e.node = ExprKind.AddrOf mutbl inner ∧
        inner.node = ExprKind.Array [e0] ∧ e0.node = ExprKind.Lit (LitKind.Str "" raw) := by
  constructor
  · intro h
    obtain ⟨i, sp, nd⟩ := e
    unfold check_single_piece at h
    simp only [Expr.node] at h
    cases nd <;> try exact Bool.noConfusion h
    rename_i mutbl inner
    obtain ⟨i2, sp2, nd2⟩ := inner
    simp only [Expr.node] at h
    cases nd2 <;> try exact Bool.noConfusion h
    rename_i elems
    cases elems with
    | nil => exact Bool.noConfusion h
    | cons e0 rest =>
      cases rest <;> try exact Bool.noConfusion h
      obtain ⟨i3, sp3, nd3⟩ := e0
      simp only [Expr.node] at h
      cases nd3 <;> try exact Bool.noConfusion h
      rename_i lit
      cases lit with
      | Other => exact Bool.noConfusion h
      | Str s raw =>
        have hs : s = "" := (String.isEmpty_iff s).mp h
        subst hs
        exact ⟨mutbl, _, _, raw, rfl, rfl, rfl⟩
  · rintro ⟨mutbl, inner, e0, raw, h1, h2, h3⟩
    simp only [check_single_piece, h1, h2, h3]
    decide

/-- Claim C7 witness: the concrete piece argument `&[""]` is accepted. -/
theorem claim_C7_witness : check_single_piece tPiece = true :=
  (claim_C7 tPiece).mpr ⟨false, _, _, false, rfl, rfl, rfl⟩

/-- Claim C2 counterexample: on an input whose match scrutinee is a
two-element tuple (every other condition of the shape holding),
`get_single_string_arg` still returns `some`, and hands back the span of
the first tuple element; so `some` is not returned only for one-element
tuple scrutinees. -/
theorem claim_C2_counterexample :
    scrutTupLen tArg1Two = some 2 ∧
      get_single_string_arg cxA tArg1Two = PanicOr.ok (some 11) := by decide

/-- Claim C2 (amended): `get_single_string_arg` returns `some` only when
the matched Match expression's scrutinee is a nonempty Tuple, and in that
case the returned value is the span of that tuple's first element (for
the well-formed one-element expansion this is the caller's original
argument expression), not the span of the synthesized match expression or
any other node. -/
theorem claim_C2_amended (cx : Context) (e : Expr) (sp : Span)
    (h : get_single_string_arg cx e = PanicOr.ok (some sp)) :
    ∃ mutbl inner m arms msrc v0 vs, e.node = ExprKind.AddrOf mutbl inner ∧
      inner.node = ExprKind.Match m arms msrc ∧
      m.node = ExprKind.Tup (v0 :: vs) ∧ sp = v0.span := by
  unfold get_single_string_arg at h
  repeat split at h
  all_goals try (simp at h; done)
  simp only [PanicOr.ok.injEq, Option.some.injEq] at h
  rename_i v0 tail heq
  exact ⟨_, _, _, _, _, v0, tail, by assumption, by assumption, heq, h.symm⟩

/-- Claim C2 witness: the amended claim applied to the concrete
single-substitution argument, whose scrutinee's sole element sits at
span 11. -/
theorem claim_C2_amended_witness :
    ∃ mutbl inner m arms msrc v0 vs, tArg1.node = ExprKind.AddrOf mutbl inner ∧
      inner.node = ExprKind.Match m arms msrc ∧
      m.node = ExprKind.Tup (v0 :: vs) ∧ (11 : Span) = v0.span :=
  claim_C2_amended cxA tArg1 11 (by decide)

/-- Claim C10: `check_unformatted` depends only on the `width` field
nested in the `format` field: whenever the first `format` field of the
struct is a struct literal whose first `width` field is a path whose last
segment is `Implied`, it returns true, whatever every other field
holds. -/
theorem claim_C10 (e inner e0 : Expr) (mutbl : Bool) (q q2 : QPath)
    (b b2 : Option Expr) (fields fields2 : List Field) (ff wf : Field) (qp : QPath)
    (h1 : e.node = ExprKind.AddrOf mutbl inner)
    (h2 : inner.node = ExprKind.Array [e0])
    (h3 : e0.node = ExprKind.Struct q fields b)
    (h4 : fields.find? (fun f => f.name == "format") = some ff)
    (h5 : ff.expr.node = ExprKind.Struct q2 fields2 b2)
    (h6 : fields2.find? (fun f => f.name == "width") = some wf)
    (h7 : wf.expr.node = ExprKind.Path qp)
    (h8 : last_path_segment qp = "Implied") :
    check_unformatted e = true := by
  simp only [check_unformatted, h1, h2, h3, h4, h5, h6, h7, h8]
  simp

/-- Claim C10 witness: the specification struct with explicit non-Implied
`position`, `fill`, `precision` and `align` fields around a
`width: Implied` is still accepted. -/
theorem claim_C10_witness : check_unformatted tSpecExtra = true :=
  claim_C10 tSpecExtra tExtraArr tExtraStruct false (QPath.mk ["Argument"])
    (QPath.mk ["FormatSpec"]) none none tExtraFields tExtraFields2
    tExtraFormatField tWidthField qImplied rfl rfl rfl rfl rfl rfl rfl rfl

/-- Helper: on any expression that does not place an empty tuple
scrutinee under the address-of/match shape, `get_single_string_arg`
cannot hit the unguarded index `values[0]`. -/
theorem gssa_no_panic (cx : Context) (e : Expr) (h1 : hasEmptyTupScrut e = false) :
    get_single_string_arg cx e ≠ PanicOr.panic := by
  intro hcontra
  unfold get_single_string_arg at hcontra
  repeat' split at hcontra
  all_goals try exact PanicOr.noConfusion hcontra
  simp_all [hasEmptyTupScrut]

/-- Helper: `classify` cannot panic when no call argument has the
empty-tuple-scrutinee shape. -/
theorem classify_no_panic (cx : Context) (e : Expr)
    (h2 : callArgsEmptyScrutFree e = true) :
    classify cx e ≠ PanicOr.panic := by
  intro hcontra
  unfold classify at hcontra
  repeat' split at hcontra
  all_goals try exact PanicOr.noConfusion hcontra
  rename_i a0 a1 a2 heqnode x1 fdi heqres hmdp hcsp x0 heqg
  have hA1 : hasEmptyTupScrut a1 = false := by
    simp only [callArgsEmptyScrutFree, heqnode, List.all_cons, List.all_nil,
      Bool.and_eq_true, Bool.not_eq_true', and_true] at h2
    exact h2.2.1
  exact gssa_no_panic cx a1 hA1 heqg

/-- Claim C3 counterexample: on the expression whose arm pattern is a
one-element tuple pattern but whose scrutinee is an empty tuple (all
other conditions of the single-substitution shape holding),
`get_single_string_arg` hits the unguarded index `values[0]` and panics,
and `classify` propagates the panic instead of returning a normal
result. -/
theorem claim_C3_counterexample :
    get_single_string_arg cxA tArg1Empty = PanicOr.panic ∧
      classify cxA tCallPanic = PanicOr.panic := by decide

/-- Claim C3 (amended): `check_single_piece` and `check_unformatted` always
return a boolean, and `get_single_string_arg` and `classify` return
a normal Option result on every input expression that does not place an
empty-tuple scrutinee under the address-of/match shape (themselves, or
for `classify` in any call argument); on the empty-tuple inputs of the
claim they panic. -/
theorem claim_C3_amended (cx : Context) (e : Expr)
    (h1 : hasEmptyTupScrut e = false) (h2 : callArgsEmptyScrutFree e = true) :
    (∃ r, get_single_string_arg cx e = PanicOr.ok r) ∧
      ∃ r, classify cx e = PanicOr.ok r := by
  constructor
  · cases hge : get_single_string_arg cx e with
    | panic => exact absurd hge (gssa_no_panic cx e h1)
    | ok r => exact ⟨r, rfl⟩
  · cases hce : classify cx e with
    | panic => exact absurd hce (classify_no_panic cx e h2)
    | ok r => exact ⟨r, rfl⟩

/-- Claim C3 witness: the amended claim applied to the concrete
single-substitution call, whose scrutinee tuple is nonempty. -/
theorem claim_C3_amended_witness :
    (∃ r, get_single_string_arg cxA tCallA = PanicOr.ok r) ∧
      ∃ r, classify cxA tCallA = PanicOr.ok r :=
  claim_C3_amended cxA tCallA (by decide) (by decide)

/-- Claim C5: if the resolved type of the pattern-bound name in the
single-substitution shape, after stripping reference wrappers, is
neither the primitive string-slice type nor the owned string type, then
`get_single_string_arg` returns none and `classify` emits no suggestion
for a call carrying the expression as its second argument, even when
every structural condition of the shape holds. -/
theorem claim_C5 (cx : Context) (e inner m : Expr) (mutbl : Bool) (arm : Arm)
    (msrc : Nat) (b0 : Pat)
    (h1 : e.node = ExprKind.AddrOf mutbl inner)
    (h2 : inner.node = ExprKind.Match m [arm] msrc)
    (h3 : arm.pats = [Pat.Tuple [b0] none])
    (hty1 : walk_ptrs_ty (cx.patTy b0) ≠ Ty.Str)
    (hty2 : match_type cx (walk_ptrs_ty (cx.patTy b0)) STRING_PATH = false) :
    get_single_string_arg cx e = PanicOr.ok none ∧
      ∀ ec fn a0 a2, ec.node = ExprKind.Call fn [a0, e, a2] →
        classify cx ec = PanicOr.ok none := by
  have hg : get_single_string_arg cx e = PanicOr.ok none := by
    simp only [get_single_string_arg, h1, h2, h3]
    repeat' split
    all_goals simp_all
  refine ⟨hg, ?_⟩
  intro ec fn a0 a2 hec
  rw [classify_call_eq cx ec fn a0 e a2 hec]
  repeat' split
  all_goals simp_all

/-- Claim C5 witness: under the context whose pattern types are a
non-string ADT, the concrete single-substitution shape is rejected and
the concrete call yields no suggestion. -/
theorem claim_C5_witness :
    get_single_string_arg cxB tArg1 = PanicOr.ok none ∧
      classify cxB tCallA = PanicOr.ok none := by
  have h := claim_C5 cxB tArg1 tArg1Inner tScrut false tArm 0 (Pat.Binding 0)
    rfl rfl rfl (by decide) (by decide)
  exact ⟨h.1, h.2 tCallA tCallee tPiece tSpec rfl⟩

/-- Claim C6: if the `width` field inside the `format` field of the
specification struct is a Path whose last segment is anything other than
`Implied`, or the `format` or `width` field is absent or of the wrong
shape, `check_unformatted` returns false and `classify` emits no
suggestion for a call carrying the expression as its third argument. -/
theorem claim_C6 (cx : Context) (e inner e0 : Expr) (mutbl : Bool) (q : QPath)
    (b : Option Expr) (fields : List Field)
    (h1 : e.node = ExprKind.AddrOf mutbl inner)
    (h2 : inner.node = ExprKind.Array [e0])
    (h3 : e0.node = ExprKind.Struct q fields b)
    (hw : widthImplied fields = false) :
    check_unformatted e = false ∧
      ∀ ec fn a0 a1, ec.node = ExprKind.Call fn [a0, a1, e] →
        emits (classify cx ec) = false := by
  have hcu : check_unformatted e = false := by
    simp only [check_unformatted, h1, h2, h3]
    repeat' split
    all_goals simp_all [widthImplied]
  refine ⟨hcu, ?_⟩
  intro ec fn a0 a1 hec
  rw [classify_call_eq cx ec fn a0 a1 e hec]
  repeat' split
  all_goals simp_all [emits]

/-- Claim C6 witness: the specification struct with the explicit width
`Count::Is` is rejected, and the concrete call carrying it yields no
suggestion. -/
theorem claim_C6_witness :
    check_unformatted tSpecBad = false ∧ emits (classify cxA tCallBadSpec) = false := by
  have h := claim_C6 cxA tSpecBad tBadArr tBadStruct false (QPath.mk ["Argument"])
    none tBadFields rfl rfl rfl (by decide)
  exact ⟨h.1, h.2 tCallBadSpec tCallee tPiece tArg1 rfl⟩

/-- Claim C4 counterexample: on the concrete literal-form expansion
(matched expression at span 1, macro origin at span 2, with source text
"expd" at span 1 and "orig" at span 2), the emitted replacement text is
built from the matched expression's own span, giving "expd.to_string()";
it is not the full original invocation text "orig" with ".to_string()"
appended. -/
theorem claim_C4_counterexample :
    classify cxA tMatchLit = PanicOr.ok (some (Suggestion.mk 2 "useless use of `format!`" 2
      "consider using .to_string()" "expd.to_string()")) ∧
      cxA.snippet 2 ++ ".to_string()" = "orig.to_string()" ∧
      "expd.to_string()" ≠ "orig.to_string()" := by decide

/-- Claim C4 (amended): for every expression originating from the target
macro (not nested in another macro) that is a Match whose scrutinee is an
empty Tuple, `classify` emits a suggestion regardless of the arms or
argument contents, reported at the macro-origin span with the suggestion
attached at that same span; its replacement text is the source text of
the matched expression's own span with ".to_string()" appended (this
coincides with the original invocation text only when that span reads
back the invocation). -/
theorem claim_C4_amended (cx : Context) (e m : Expr) (arms : List Arm) (msrc : Nat)
    (o : Span)
    (hexp : cx.expnOfFormat e.span = some o) (hnm : cx.inMacro o = false)
    (hnode : e.node = ExprKind.Match m arms msrc) (hm : m.node = ExprKind.Tup []) :
    classify cx e = PanicOr.ok (some (Suggestion.mk o "useless use of `format!`" o
      "consider using .to_string()" (cx.snippet e.span ++ ".to_string()"))) := by
  rw [classify_match_eq cx e m arms msrc hnode]
  simp [hexp, hnm, hm]

/-- Claim C4 witness: the amended claim applied to the concrete
literal-form expansion. -/
theorem claim_C4_amended_witness :
    classify cxA tMatchLit = PanicOr.ok (some (Suggestion.mk 2 "useless use of `format!`" 2
      "consider using .to_string()" (cxA.snippet tMatchLit.span ++ ".to_string()"))) :=
  claim_C4_amended cxA tMatchLit tLitScrut [] 0 2 rfl rfl rfl rfl

/-- Helper: if `classify` emits a suggestion on a three-argument call
node whose macro-origin gates passed, then the callee resolved to the
formatted-arguments constructor, the first argument passed
`check_single_piece`, the second yielded a span, the third passed
`check_unformatted`, and the suggestion is exactly the one built by the
suggestion synthesizer. -/
theorem classify_call_some (cx : Context) (ec fn a0 a1 a2 : Expr) (o : Span) (s : Suggestion)
    (hexp : cx.expnOfFormat ec.span = some o) (hnm : cx.inMacro o = false)
    (hec : ec.node = ExprKind.Call fn [a0, a1, a2])
    (hs : classify cx ec = PanicOr.ok (some s)) :
    (∃ q d, fn.node = ExprKind.Path q ∧ cx.resolve q fn.hirId = some d ∧
      match_def_path cx d FMT_ARGUMENTS_NEWV1FORMATTED = true) ∧
    check_single_piece a0 = true ∧
    (∃ fa, get_single_string_arg cx a1 = PanicOr.ok (some fa) ∧
      s = Suggestion.mk o "useless use of `format!`" ec.span "consider using .to_string()"
        (cx.snippet fa ++ ".to_string()")) ∧
    check_unformatted a2 = true := by
  rw [classify_call_eq cx ec fn a0 a1 a2 hec] at hs
  rw [hexp] at hs
  simp only [hnm, Bool.false_eq_true, if_false] at hs
  repeat' split at hs
  all_goals try (simp at hs; done)
  simp only [PanicOr.ok.injEq, Option.some.injEq] at hs
  rename_i x2 q heqfn x1 d heqres hdp hp x0 fa heqg hu
  subst hs
  exact ⟨⟨q, d, heqfn, heqres, hdp⟩, hp, ⟨fa, heqg, rfl⟩, hu⟩

/-- Claim C8 counterexample: on the concrete call-form input the inner
argument span is 11, yet the emitted suggestion reports the lint at the
macro-origin span 2 and attaches the suggestion carrying the edit at the
matched call expression's own span 1; no span placed in the diagnostic
equals the inner argument span, which is used only for the replacement
text. -/
theorem claim_C8_counterexample :
    get_single_string_arg cxA tArg1 = PanicOr.ok (some 11) ∧
      classify cxA tCallA = PanicOr.ok (some (Suggestion.mk 2 "useless use of `format!`" 1
        "consider using .to_string()" "foo.to_string()")) ∧
      (1 : Span) ≠ 11 ∧ (2 : Span) ≠ 11 := by decide

/-- Helper: the suggestion `classify` builds when every condition of the
call form holds. -/
theorem classify_call_spec (cx : Context) (ec fn a0 a1 a2 : Expr) (o fa : Span)
    (q : QPath) (d : DefId)
    (hexp : cx.expnOfFormat ec.span = some o) (hnm : cx.inMacro o = false)
    (hec : ec.node = ExprKind.Call fn [a0, a1, a2]) (hfn : fn.node = ExprKind.Path q)
    (hres : cx.resolve q fn.hirId = some d)
    (hdp : match_def_path cx d FMT_ARGUMENTS_NEWV1FORMATTED = true)
    (hp : check_single_piece a0 = true)
    (hg : get_single_string_arg cx a1 = PanicOr.ok (some fa))
    (hu : check_unformatted a2 = true) :
    classify cx ec = PanicOr.ok (some (Suggestion.mk o "useless use of `format!`"
      ec.span "consider using .to_string()" (cx.snippet fa ++ ".to_string()"))) := by
  rw [classify_call_eq cx ec fn a0 a1 a2 hec]
  rw [hexp]
  simp [hnm, hfn, hres, hdp, hp, hg, hu]

/-- Claim C8 (amended): for the call-form shape, the lint is reported at
the whole original macro-invocation span and the suggestion carrying the
edit is attached at the matched call expression's own span (a span of the
expanded expression); the inner argument span contributes only the
snippet used as replacement text. -/
theorem claim_C8_amended (cx : Context) (ec fn a0 a1 a2 : Expr) (o fa : Span)
    (q : QPath) (d : DefId)
    (hexp : cx.expnOfFormat ec.span = some o) (hnm : cx.inMacro o = false)
    (hec : ec.node = ExprKind.Call fn [a0, a1, a2]) (hfn : fn.node = ExprKind.Path q)
    (hres : cx.resolve q fn.hirId = some d)
    (hdp : match_def_path cx d FMT_ARGUMENTS_NEWV1FORMATTED = true)
    (hp : check_single_piece a0 = true)
    (hg : get_single_string_arg cx a1 = PanicOr.ok (some fa))
    (hu : check_unformatted a2 = true) :
    classify cx ec = PanicOr.ok (some (Suggestion.mk o "useless use of `format!`"
      ec.span "consider using .to_string()" (cx.snippet fa ++ ".to_string()"))) :=
  classify_call_spec cx ec fn a0 a1 a2 o fa q d hexp hnm hec hfn hres hdp hp hg hu

/-- Claim C8 witness: the amended claim applied to the concrete call-form
input. -/
theorem claim_C8_amended_witness :
    classify cxA tCallA = PanicOr.ok (some (Suggestion.mk 2 "useless use of `format!`"
      tCallA.span "consider using .to_string()" (cxA.snippet 11 ++ ".to_string()"))) :=
  claim_C8_amended cxA tCallA tCallee tPiece tArg1 tSpec 2 11 qNew 1
    rfl rfl rfl rfl (by decide) (by decide) (by decide) (by decide) (by decide)

/-- Claim C1: for every expression that is a call with exactly three
arguments, originates from the target macro expansion and is not nested
in another macro, `classify` emits a suggestion if and only if the callee
resolves to the formatted-arguments constructor, `check_single_piece`
holds on argument 0, `get_single_string_arg` yields a span on argument 1
and `check_unformatted` holds on argument 2; and the emitted suggestion's
replacement text is exactly the source text of that span followed by
".to_string()". -/
theorem claim_C1 (cx : Context) (ec fn a0 a1 a2 : Expr) (o : Span)
    (hexp : cx.expnOfFormat ec.span = some o) (hnm : cx.inMacro o = false)
    (hec : ec.node = ExprKind.Call fn [a0, a1, a2]) :
    ((∃ s, classify cx ec = PanicOr.ok (some s)) ↔
      ((∃ q d, fn.node = ExprKind.Path q ∧ cx.resolve q fn.hirId = some d ∧
        match_def_path cx d FMT_ARGUMENTS_NEWV1FORMATTED = true) ∧
       check_single_piece a0 = true ∧
       (∃ fa, get_single_string_arg cx a1 = PanicOr.ok (some fa)) ∧
       check_unformatted a2 = true)) ∧
    ∀ s fa, classify cx ec = PanicOr.ok (some s) →
      get_single_string_arg cx a1 = PanicOr.ok (some fa) →
      s.replacement = cx.snippet fa ++ ".to_string()" := by
  constructor
  · constructor
    · rintro ⟨s, hs⟩
      obtain ⟨hq, hp, ⟨fa, hfa, hsug⟩, hu⟩ :=
        classify_call_some cx ec fn a0 a1 a2 o s hexp hnm hec hs
      exact ⟨hq, hp, ⟨fa, hfa⟩, hu⟩
    · rintro ⟨⟨q, d, hfn, hres, hdp⟩, hp, ⟨fa, hfa⟩, hu⟩
      exact ⟨_, classify_call_spec cx ec fn a0 a1 a2 o fa q d hexp hnm hec hfn hres
        hdp hp hfa hu⟩
  · intro s fa hs hfa
    obtain ⟨hq, hp, ⟨fa2, hfa2, hsug⟩, hu⟩ :=
      classify_call_some cx ec fn a0 a1 a2 o s hexp hnm hec hs
    rw [hfa] at hfa2
    simp only [PanicOr.ok.injEq, Option.some.injEq] at hfa2
    subst hfa2
    rw [hsug]

/-- Claim C1 witness: on the concrete call-form input every condition
holds and a suggestion is emitted. -/
theorem claim_C1_witness : ∃ s, classify cxA tCallA = PanicOr.ok (some s) :=
  (claim_C1 cxA tCallA tCallee tPiece tArg1 tSpec 2 rfl rfl rfl).1.mpr
    ⟨⟨qNew, 1, rfl, by decide, by decide⟩, by decide, ⟨11, by decide⟩, by decide⟩

/-- Claim C9: a path-resolution failure on the callee of the call form
makes `classify` return a normal no-suggestion result, a path-resolution
failure on the second argument of the inner call of the
single-substitution shape makes `get_single_string_arg` return a normal
no-match result, and a suggestion is only ever emitted on the call form
when every required sub-shape condition matched. -/
theorem claim_C9 (cx : Context) :
    (∀ ec fn a0 a1 a2 q o, cx.expnOfFormat ec.span = some o → cx.inMacro o = false →
      ec.node = ExprKind.Call fn [a0, a1, a2] → fn.node = ExprKind.Path q →
      cx.resolve q fn.hirId = none → classify cx ec = PanicOr.ok none) ∧
    (∀ e mutbl inner m g msrc b0 body e0 callee x a1 q,
      e.node = ExprKind.AddrOf mutbl inner →
      inner.node = ExprKind.Match m [Arm.mk [Pat.Tuple [b0] none] g body] msrc →
      body.node = ExprKind.Array [e0] →
      e0.node = ExprKind.Call callee [x, a1] →
      a1.node = ExprKind.Path q →
      cx.resolve q a1.hirId = none →
      get_single_string_arg cx e = PanicOr.ok none) ∧
    (∀ ec fn a0 a1 a2 o s, cx.expnOfFormat ec.span = some o → cx.inMacro o = false →
      ec.node = ExprKind.Call fn [a0, a1, a2] →
      classify cx ec = PanicOr.ok (some s) →
      (∃ q d, fn.node = ExprKind.Path q ∧ cx.resolve q fn.hirId = some d ∧
        match_def_path cx d FMT_ARGUMENTS_NEWV1FORMATTED = true) ∧
      check_single_piece a0 = true ∧
      (∃ fa, get_single_string_arg cx a1 = PanicOr.ok (some fa)) ∧
      check_unformatted a2 = true) := by
  refine ⟨?_, ?_, ?_⟩
  · intro ec fn a0 a1 a2 q o hexp hnm hec hfn hres
    rw [classify_call_eq cx ec fn a0 a1 a2 hec]
    rw [hexp]
    simp [hnm, hfn, hres]
  · intro e mutbl inner m g msrc b0 body e0 callee x a1 q h1 h2 h3 h4 h5 hres
    simp only [get_single_string_arg, h1, h2, Arm.pats, Arm.body, h3, h4, h5, hres]
  · intro ec fn a0 a1 a2 o s hexp hnm hec hs
    obtain ⟨hq, hp, ⟨fa, hfa, hsug⟩, hu⟩ :=
      classify_call_some cx ec fn a0 a1 a2 o s hexp hnm hec hs
    exact ⟨hq, hp, ⟨fa, hfa⟩, hu⟩

/-- Claim C9 witness: under the context whose resolver always fails, the
concrete call form is dismissed with a normal no-suggestion result and
the concrete single-substitution shape is dismissed with a normal
no-match result. -/
theorem claim_C9_witness :
    classify cxC tCallA = PanicOr.ok none ∧
      get_single_string_arg cxC tArg1 = PanicOr.ok none :=
  ⟨(claim_C9 cxC).1 tCallA tCallee tPiece tArg1 tSpec qNew 2 rfl rfl rfl rfl rfl,
   (claim_C9 cxC).2.1 tArg1 false tArg1Inner tScrut none 0 (Pat.Binding 0) tArmBody
     tInnerCall (Expr.mk 113 43 ExprKind.Other) (Expr.mk 114 44 ExprKind.Other)
     tDispArg qDisp rfl rfl rfl rfl rfl rfl⟩

end UselessFormat

